import Mathlib

/-!
Shallow embedding of the browser client in `src/app/static/script.js` of the
dev-agent-webapp repository.  The client fetches a tool catalog (`/tools`),
renders one checkbox entry per tool, creates an agent session
(`/sessions/create`) bound to the checked tools and the constant user id
`default_user`, and submits chat queries (`/query`) whose textual response
replaces the chat display element.

The embedding is faithful to the source:
* each of the three `async` API call functions wraps its `fetch` in
  `try/catch`, throws on a non-ok HTTP status, and on any failure logs via
  `console.error` and returns `undefined` (modelled as `none`);
* the handlers `initCheckbox`, `createSession` and `sendQuery` dereference
  the call result without a null check, so when the call returned
  `undefined` a `TypeError` escapes the handler (modelled by the `threw`
  flag of `HandlerOutcome`);
* the mutable page state is the variable `currentSessinId` (initially
  `null`), the text content of the `chat-content-tmp` element, and the
  children appended to the `tool-container` element.

The network environment is an oracle value of type `FetchOutcome` supplied
per call: the transport may throw, or an HTTP response with a status code
arrives whose JSON body may parse or fail to parse.
-/

namespace DevAgent

/-- A tool record as served inside the `/tools` response. -/
structure Tool where
  name : String
  description : String
deriving Repr, DecidableEq

/-- Parsed body of a `/tools` response: `{ tools: [...] }`. -/
structure ToolListResponse where
  tools : List Tool
deriving Repr, DecidableEq

/-- Parsed body of a `/sessions/create` response: `{ session_id }`. -/
structure CreateSessionResponse where
  session_id : String
deriving Repr, DecidableEq

/-- Parsed body of a `/query` response: `{ response }`. -/
structure QueryResponse where
  response : String
deriving Repr, DecidableEq

/-- JSON body `callCreateSession` posts to `/sessions/create`. -/
structure CreateSessionRequest where
  user_id : String
  tool_names : List String
deriving Repr, DecidableEq

/-- JSON body `callQuery` posts to `/query`; `session_id` is `none` when the
JavaScript value is `null`. -/
structure QueryRequest where
  user_id : String
  query : String
  session_id : Option String
deriving Repr, DecidableEq

/-- A network request issued by the client, with its body. -/
inductive Request where
  | getTools : Request
  | createSession : CreateSessionRequest → Request
  | query : QueryRequest → Request
deriving Repr, DecidableEq

/-- Environment model of one `fetch` call: the transport throws
(`networkError`), or an HTTP response with `status` arrives whose body
parses to `some b`, or fails to parse (`none`, i.e. `response.json()`
throws). -/
inductive FetchOutcome (β : Type) where
  | networkError : FetchOutcome β
  | response : Nat → Option β → FetchOutcome β
deriving Repr, DecidableEq

/-- `response.ok` of the Fetch API: the status is in the range 200..299. -/
def responseOk (status : Nat) : Bool :=
  decide (200 ≤ status) && decide (status < 300)

/-- The module-level variable `userId = 'default_user'`; it is never
reassigned anywhere in the script. -/
def userId : String := "default_user"

/-- `callGetToolList()`: fetch `/tools`; a non-ok status throws
`HTTP error!`, and the `catch` block logs the message and falls off the end,
returning `undefined` (`none`).  Transport and parse errors are caught the
same way. -/
def callGetToolList (o : FetchOutcome ToolListResponse) :
    Option ToolListResponse :=
  match o with
  | FetchOutcome.networkError => none
  | FetchOutcome.response status body =>
      if responseOk status then body else none

/-- `callCreateSession(selectedTools)`: POST `/sessions/create` with body
`{ user_id: userId, tool_names: selectedTools }`; failure handling is
identical to `callGetToolList`. -/
def callCreateSession (selectedTools : List String)
    (o : FetchOutcome CreateSessionResponse) : Option CreateSessionResponse :=
  match selectedTools with
  | _ =>
    match o with
    | FetchOutcome.networkError => none
    | FetchOutcome.response status body =>
        if responseOk status then body else none

/-- The request body built inside `callCreateSession`. -/
def createSessionBody (selectedTools : List String) : CreateSessionRequest :=
  { user_id := userId, tool_names := selectedTools }

/-- `callQuery(query)`: POST `/query` with body
`{ user_id: userId, query: query, session_id: currentSessinId }`; failure
handling is identical to `callGetToolList`. -/
def callQuery (currentSessinId : Option String) (query : String)
    (o : FetchOutcome QueryResponse) : Option QueryResponse :=
  match currentSessinId, query with
  | _, _ =>
    match o with
    | FetchOutcome.networkError => none
    | FetchOutcome.response status body =>
        if responseOk status then body else none

/-- The request body built inside `callQuery`. -/
def queryBody (currentSessinId : Option String) (query : String) :
    QueryRequest :=
  { user_id := userId, query := query, session_id := currentSessinId }

/-- True exactly when the `catch` block of an API call runs
`console.error`: on transport error, on a non-ok status (the thrown
`HTTP error!`), or on a body parse error. -/
def fetchErrorLogged {β : Type} (o : FetchOutcome β) : Bool :=
  match o with
  | FetchOutcome.networkError => true
  | FetchOutcome.response status body =>
      if responseOk status then body.isNone else true

/-- One rendered `tool-item` wrapper appended to `tool-container`:
a checkbox, its label, and a description paragraph. -/
structure ToolItem where
  checkboxId : String
  checkboxValue : String
  labelFor : String
  labelText : String
  descriptionText : String
deriving Repr, DecidableEq

/-- The DOM elements `initCheckbox` builds for one tool record. -/
def renderTool (tool : Tool) : ToolItem :=
  { checkboxId := tool.name
    checkboxValue := tool.name
    labelFor := tool.name
    labelText := tool.name
    descriptionText := tool.description }

/-- The client's mutable page state: `currentSessinId` (JavaScript `null`
is `none`), the text content of `chat-content-tmp`, and the children of
`tool-container`. -/
structure ClientState where
  currentSessinId : Option String
  chatContent : String
  toolContainer : List ToolItem
deriving Repr, DecidableEq

/-- Observable outcome of running one handler: the page state after the
handler returned or its exception escaped, the network requests it issued,
whether it showed an `alert`, whether `console.error` ran, and whether an
exception (the `TypeError` from dereferencing `undefined`) escaped the
handler. -/
structure HandlerOutcome where
  state : ClientState
  requests : List Request
  alerted : Bool
  loggedError : Bool
  threw : Bool
deriving Repr, DecidableEq

/-- `getSelectedTools()`: pushes the `value` of each checked checkbox onto a
fresh array, in document order.  The checked values are an input here since
they are read from the live DOM at call time. -/
def getSelectedTools (checkedValues : List String) : List String :=
  checkedValues.foldl (fun selectedTools v => selectedTools ++ [v]) []

/-- `initCheckbox()`: fetch the catalog, then iterate `toolList.tools`,
appending one wrapper per tool to `tool-container`.  When the call returned
`undefined`, the member access `toolList.tools` throws a `TypeError` that
escapes the handler, leaving the container untouched. -/
def initCheckbox (st : ClientState) (o : FetchOutcome ToolListResponse) :
    HandlerOutcome :=
  match callGetToolList o with
  | none =>
      { state := st
        requests := [Request.getTools]
        alerted := false
        loggedError := fetchErrorLogged o
        threw := true }
  | some toolList =>
      { state := { st with
          toolContainer := st.toolContainer ++ toolList.tools.map renderTool }
        requests := [Request.getTools]
        alerted := false
        loggedError := fetchErrorLogged o
        threw := false }

/-- `createSession()`: read the checked tools; if none are checked, alert
and stop.  Otherwise call `callCreateSession` and assign
`currentSessinId = newSessinId.session_id`; when the call returned
`undefined` that member access throws before any assignment, so the stored
session id keeps its prior value. -/
def createSession (st : ClientState) (checkedValues : List String)
    (o : FetchOutcome CreateSessionResponse) : HandlerOutcome :=
  let selectedTools := getSelectedTools checkedValues
  if selectedTools.length = 0 then
    { state := st
      requests := []
      alerted := true
      loggedError := false
      threw := false }
  else
    match callCreateSession selectedTools o with
    | none =>
        { state := st
          requests := [Request.createSession (createSessionBody selectedTools)]
          alerted := false
          loggedError := fetchErrorLogged o
          threw := true }
    | some newSessinId =>
        { state := { st with currentSessinId := some newSessinId.session_id }
          requests := [Request.createSession (createSessionBody selectedTools)]
          alerted := false
          loggedError := fetchErrorLogged o
          threw := false }

/-- `sendQuery()`: if `currentSessinId == null`, alert and take the `else`
branch no further (no request is issued).  Otherwise, if the query input is
the empty string, alert.  Otherwise call `callQuery` and assign the response
text to the chat element; when the call returned `undefined`, the member
access `result.response` throws before the assignment, so the display keeps
its prior text. -/
def sendQuery (st : ClientState) (queryInput : String)
    (o : FetchOutcome QueryResponse) : HandlerOutcome :=
  match st.currentSessinId with
  | none =>
      { state := st
        requests := []
        alerted := true
        loggedError := false
        threw := false }
  | some _ =>
      if queryInput = "" then
        { state := st
          requests := []
          alerted := true
          loggedError := false
          threw := false }
      else
        match callQuery st.currentSessinId queryInput o with
        | none =>
            { state := st
              requests := [Request.query (queryBody st.currentSessinId queryInput)]
              alerted := false
              loggedError := fetchErrorLogged o
              threw := true }
        | some result =>
            { state := { st with chatContent := result.response }
              requests := [Request.query (queryBody st.currentSessinId queryInput)]
              alerted := false
              loggedError := fetchErrorLogged o
              threw := false }

/-- One user-observable client operation together with the network
environment it encountered. -/
inductive ClientOp where
  | load : FetchOutcome ToolListResponse → ClientOp
  | create : List String → FetchOutcome CreateSessionResponse → ClientOp
  | send : String → FetchOutcome QueryResponse → ClientOp
deriving Repr, DecidableEq

/-- Run the handler an operation triggers. -/
def stepOutcome (st : ClientState) : ClientOp → HandlerOutcome
  | ClientOp.load o => initCheckbox st o
  | ClientOp.create checkedValues o => createSession st checkedValues o
  | ClientOp.send queryInput o => sendQuery st queryInput o

/-- The page state after one operation. -/
def stepState (st : ClientState) (op : ClientOp) : ClientState :=
  (stepOutcome st op).state

/-- The page state after a sequence of operations. -/
def runOps (st : ClientState) : List ClientOp → ClientState
  | [] => st
  | op :: ops => runOps (stepState st op) ops

/-- All network requests issued along a sequence of operations. -/
def traceRequests (st : ClientState) : List ClientOp → List Request
  | [] => []
  | op :: ops => (stepOutcome st op).requests ++ traceRequests (stepState st op) ops

/-- Page state at load: `currentSessinId = null`, empty chat display,
empty tool container. -/
def initialState : ClientState :=
  { currentSessinId := none, chatContent := "", toolContainer := [] }

/-- An operation is a session creation that reaches the assignment
`currentSessinId = newSessinId.session_id`: some tool is checked and the
create call returned a parsed body. -/
def isSuccessfulCreate : ClientOp → Bool
  | ClientOp.create checkedValues o =>
      if (getSelectedTools checkedValues).length = 0 then false
      else (callCreateSession (getSelectedTools checkedValues) o).isSome
  | _ => false

end DevAgent

namespace DevAgent

/-- Folding push over a list appends it to the accumulator. -/
lemma foldl_push (c : List String) (acc : List String) :
    c.foldl (fun selectedTools v => selectedTools ++ [v]) acc = acc ++ c := by
  induction c generalizing acc with
  | nil => simp
  | cons x xs ih => simp [List.foldl, ih]

/-- `getSelectedTools` returns exactly the checked values, in order. -/
lemma getSelectedTools_eq (c : List String) : getSelectedTools c = c := by
  simpa [getSelectedTools] using foldl_push c []

/-- `initCheckbox` never touches the stored session id or the chat text. -/
lemma initCheckbox_state (st : ClientState) (o : FetchOutcome ToolListResponse) :
    (initCheckbox st o).state.currentSessinId = st.currentSessinId ∧
    (initCheckbox st o).state.chatContent = st.chatContent := by
  unfold initCheckbox
  cases callGetToolList o <;> simp

/-- `sendQuery` never touches the stored session id or the tool container. -/
lemma sendQuery_state (st : ClientState) (q : String) (o : FetchOutcome QueryResponse) :
    (sendQuery st q o).state.currentSessinId = st.currentSessinId ∧
    (sendQuery st q o).state.toolContainer = st.toolContainer := by
  cases hsid : st.currentSessinId with
  | none => simp [sendQuery, hsid]
  | some sid =>
      by_cases hq : q = ""
      · simp [sendQuery, hsid, hq]
      · cases hc : callQuery (some sid) q o with
        | none => simp [sendQuery, hsid, hq, hc]
        | some r => simp [sendQuery, hsid, hq, hc]

/-- A create operation that is not a successful creation leaves the stored
session id exactly as it was. -/
lemma createSession_session_of_not_success (st : ClientState)
    (checkedValues : List String) (o : FetchOutcome CreateSessionResponse)
    (h : isSuccessfulCreate (ClientOp.create checkedValues o) = false) :
    (createSession st checkedValues o).state.currentSessinId = st.currentSessinId := by
  unfold isSuccessfulCreate at h
  unfold createSession
  by_cases hlen : (getSelectedTools checkedValues).length = 0
  · simp [hlen]
  · simp [hlen] at h ⊢
    cases hc : callCreateSession (getSelectedTools checkedValues) o with
    | none => simp
    | some r => rw [hc] at h; simp at h

/-- Any step that is not a successful session creation preserves the stored
session id exactly. -/
lemma stepState_session_of_not_success (st : ClientState) (op : ClientOp)
    (h : isSuccessfulCreate op = false) :
    (stepState st op).currentSessinId = st.currentSessinId := by
  cases op with
  | load o => exact (initCheckbox_state st o).1
  | create checkedValues o =>
      exact createSession_session_of_not_success st checkedValues o h
  | send q o => exact (sendQuery_state st q o).1

/-- A run containing no successful session creation preserves the stored
session id exactly. -/
lemma runOps_session_of_not_success (st : ClientState) (ops : List ClientOp)
    (h : ∀ op ∈ ops, isSuccessfulCreate op = false) :
    (runOps st ops).currentSessinId = st.currentSessinId := by
  induction ops generalizing st with
  | nil => rfl
  | cons op ops ih =>
      have h1 : isSuccessfulCreate op = false := h op (by simp)
      have h2 : ∀ q ∈ ops, isSuccessfulCreate q = false := fun q hq => h q (by simp [hq])
      calc (runOps st (op :: ops)).currentSessinId
          = (runOps (stepState st op) ops).currentSessinId := rfl
        _ = (stepState st op).currentSessinId := ih (stepState st op) h2
        _ = st.currentSessinId := stepState_session_of_not_success st op h1

/-- Every step keeps a non-null stored session id non-null. -/
lemma stepState_session_isSome (st : ClientState) (op : ClientOp)
    (h : st.currentSessinId.isSome = true) :
    (stepState st op).currentSessinId.isSome = true := by
  cases op with
  | load o =>
      show (initCheckbox st o).state.currentSessinId.isSome = true
      rw [(initCheckbox_state st o).1]; exact h
  | send q o =>
      show (sendQuery st q o).state.currentSessinId.isSome = true
      rw [(sendQuery_state st q o).1]; exact h
  | create checkedValues o =>
      show (createSession st checkedValues o).state.currentSessinId.isSome = true
      by_cases hlen : (getSelectedTools checkedValues).length = 0
      · simpa [createSession, hlen] using h
      · cases hc : callCreateSession (getSelectedTools checkedValues) o with
        | none => simpa [createSession, hlen, hc] using h
        | some r => simp [createSession, hlen, hc]

/-- A run keeps a non-null stored session id non-null. -/
lemma runOps_session_isSome (st : ClientState) (ops : List ClientOp)
    (h : st.currentSessinId.isSome = true) :
    (runOps st ops).currentSessinId.isSome = true := by
  induction ops generalizing st with
  | nil => exact h
  | cons op ops ih => exact ih (stepState st op) (stepState_session_isSome st op h)

/-- Any query request a single handler issues carries a non-null session id. -/
lemma stepOutcome_query_isSome (st : ClientState) (op : ClientOp)
    (qr : QueryRequest) (h : Request.query qr ∈ (stepOutcome st op).requests) :
    qr.session_id.isSome = true := by
  cases op with
  | load o =>
      have h2 : Request.query qr ∈ (initCheckbox st o).requests := h
      cases hc : callGetToolList o <;> simp [initCheckbox, hc] at h2
  | create checkedValues o =>
      have h2 : Request.query qr ∈ (createSession st checkedValues o).requests := h
      by_cases hlen : (getSelectedTools checkedValues).length = 0
      · simp [createSession, hlen] at h2
      · cases hc : callCreateSession (getSelectedTools checkedValues) o <;>
          simp [createSession, hlen, hc] at h2
  | send q o =>
      have h2 : Request.query qr ∈ (sendQuery st q o).requests := h
      cases hsid : st.currentSessinId with
      | none => simp [sendQuery, hsid] at h2
      | some sid =>
          by_cases hq : q = ""
          · simp [sendQuery, hsid, hq] at h2
          · cases hc : callQuery (some sid) q o with
            | none =>
                simp [sendQuery, hsid, hq, hc] at h2
                rw [h2]; rfl
            | some r =>
                simp [sendQuery, hsid, hq, hc] at h2
                rw [h2]; rfl

/-- Any query request issued along a run carries a non-null session id. -/
lemma traceRequests_query_isSome (st : ClientState) (ops : List ClientOp)
    (qr : QueryRequest) (h : Request.query qr ∈ traceRequests st ops) :
    qr.session_id.isSome = true := by
  induction ops generalizing st with
  | nil => simp [traceRequests] at h
  | cons op ops ih =>
      rw [traceRequests, List.mem_append] at h
      cases h with
      | inl h => exact stepOutcome_query_isSome st op qr h
      | inr h => exact ih (stepState st op) h

end DevAgent

namespace DevAgent

/-- C7: invoking `createSession` with no checked tool checkboxes shows an
alert, issues no network request, and leaves the whole page state — in
particular the stored session id — unchanged. -/
theorem empty_selection_alerts_without_request (st : ClientState)
    (o : FetchOutcome CreateSessionResponse) :
    (createSession st [] o).alerted = true ∧
    (createSession st [] o).requests = [] ∧
    (createSession st [] o).state = st := by
  simp [createSession, getSelectedTools]

/-- C2, counterexample: with a null stored session id, `sendQuery` alerts
and then issues no query request at all — its request list is empty even
for a non-empty query text and a server that would answer 200 — refuting
the claim that a request with `session_id: null` is still sent. -/
theorem null_session_still_queries_cex :
    (sendQuery initialState "hello"
        (FetchOutcome.response 200 (some { response := "hi" }))).alerted = true ∧
    (sendQuery initialState "hello"
        (FetchOutcome.response 200 (some { response := "hi" }))).requests = [] := by
  constructor <;> rfl

/-- C2 (amended): when the stored session id is null, `sendQuery` warns the
user via an alert and issues no query request; the page state is unchanged
(the `else` branch keeps the handler from reaching the call). -/
theorem null_session_alerts_and_sends_nothing (st : ClientState)
    (hs : st.currentSessinId = none) (q : String)
    (o : FetchOutcome QueryResponse) :
    (sendQuery st q o).alerted = true ∧
    (sendQuery st q o).requests = [] ∧
    (sendQuery st q o).state = st := by
  simp [sendQuery, hs]

/-- Witness for the amended C2 at the freshly loaded page. -/
theorem null_session_alerts_and_sends_nothing_witness :
    initialState.currentSessinId = none ∧
    ((sendQuery initialState "hello" FetchOutcome.networkError).alerted = true ∧
     (sendQuery initialState "hello" FetchOutcome.networkError).requests = [] ∧
     (sendQuery initialState "hello" FetchOutcome.networkError).state = initialState) :=
  ⟨rfl, null_session_alerts_and_sends_nothing initialState rfl "hello"
      FetchOutcome.networkError⟩

/-- C3: along any run from the freshly loaded page, every query request the
client issues carries a non-null session id — `sendQuery` sends nothing
while the stored session id is null. -/
theorem query_requests_carry_session (ops : List ClientOp) (qr : QueryRequest)
    (h : Request.query qr ∈ traceRequests initialState ops) :
    qr.session_id.isSome = true :=
  traceRequests_query_isSome initialState ops qr h

/-- Witness for C3 on a run that creates a session and then queries. -/
theorem query_requests_carry_session_witness :
    (Request.query { user_id := "default_user", query := "q", session_id := some "s1" } ∈
      traceRequests initialState
        [ClientOp.create ["t"] (FetchOutcome.response 200 (some { session_id := "s1" })),
         ClientOp.send "q" FetchOutcome.networkError]) ∧
    ({ user_id := "default_user", query := "q", session_id := some "s1" } :
        QueryRequest).session_id.isSome = true :=
  ⟨by decide,
   query_requests_carry_session
     [ClientOp.create ["t"] (FetchOutcome.response 200 (some { session_id := "s1" })),
      ClientOp.send "q" FetchOutcome.networkError]
     { user_id := "default_user", query := "q", session_id := some "s1" }
     (by decide)⟩

/-- C6: when the catalog call parses to a body with tool list `ts`,
`initCheckbox` appends exactly `ts.map renderTool` to the container — one
entry per tool, in server order — and each rendered entry's checkbox id,
checkbox value and label text equal the tool's name while its description
paragraph text equals the tool's description. -/
theorem catalog_renders_one_entry_per_tool (st : ClientState)
    (ts : List Tool) (o : FetchOutcome ToolListResponse)
    (ho : callGetToolList o = some { tools := ts }) :
    (initCheckbox st o).state.toolContainer = st.toolContainer ++ ts.map renderTool ∧
    (ts.map renderTool).length = ts.length ∧
    ∀ t ∈ ts, (renderTool t).checkboxId = t.name ∧
      (renderTool t).checkboxValue = t.name ∧
      (renderTool t).labelFor = t.name ∧
      (renderTool t).labelText = t.name ∧
      (renderTool t).descriptionText = t.description := by
  refine ⟨by simp [initCheckbox, ho], by simp, ?_⟩
  intro t ht
  exact ⟨rfl, rfl, rfl, rfl, rfl⟩

/-- Witness for C6 on a two-tool catalog. -/
theorem catalog_renders_one_entry_per_tool_witness :
    callGetToolList (FetchOutcome.response 200
        (some { tools := [{ name := "search", description := "web search" },
                          { name := "calc", description := "arithmetic" }] }))
      = some { tools := [{ name := "search", description := "web search" },
                         { name := "calc", description := "arithmetic" }] } ∧
    (initCheckbox initialState (FetchOutcome.response 200
        (some { tools := [{ name := "search", description := "web search" },
                          { name := "calc", description := "arithmetic" }] }))).state.toolContainer
      = initialState.toolContainer ++
        ([{ name := "search", description := "web search" },
          { name := "calc", description := "arithmetic" }] : List Tool).map renderTool :=
  ⟨rfl,
   (catalog_renders_one_entry_per_tool initialState
      [{ name := "search", description := "web search" },
       { name := "calc", description := "arithmetic" }]
      (FetchOutcome.response 200
        (some { tools := [{ name := "search", description := "web search" },
                          { name := "calc", description := "arithmetic" }] }))
      rfl).1⟩

/-- C8: a successful query whose response body is `{ response := r }`
overwrites the chat display text with exactly `r`, whatever was displayed
before; the stored session id is untouched. -/
theorem query_response_replaces_chat (st : ClientState) (sid q r : String)
    (hs : st.currentSessinId = some sid) (hq : q ≠ "")
    (o : FetchOutcome QueryResponse)
    (ho : callQuery st.currentSessinId q o = some { response := r }) :
    (sendQuery st q o).state.chatContent = r ∧
    (sendQuery st q o).state.currentSessinId = st.currentSessinId := by
  rw [hs] at ho
  simp [sendQuery, hs, hq, ho]

/-- Witness for C8: a second answer replaces the first. -/
theorem query_response_replaces_chat_witness :
    ({ currentSessinId := some "s1", chatContent := "old answer",
       toolContainer := [] } : ClientState).currentSessinId = some "s1" ∧
    ("hi" : String) ≠ "" ∧
    callQuery (some "s1") "hi" (FetchOutcome.response 200 (some { response := "hello" }))
      = some { response := "hello" } ∧
    (sendQuery { currentSessinId := some "s1", chatContent := "old answer",
                 toolContainer := [] } "hi"
        (FetchOutcome.response 200 (some { response := "hello" }))).state.chatContent
      = "hello" :=
  ⟨rfl, by decide, rfl,
   (query_response_replaces_chat
      { currentSessinId := some "s1", chatContent := "old answer", toolContainer := [] }
      "s1" "hi" "hello" rfl (by decide)
      (FetchOutcome.response 200 (some { response := "hello" })) rfl).1⟩

end DevAgent

namespace DevAgent

/-- C1: from any page state, checking exactly `["search"]` under the
constant user id and receiving a successful create response
`{ session_id := "abc123" }` stores `"abc123"`; after any further
operations, none of which is a successful session creation, submitting a
non-empty query issues exactly one query request whose body carries
`user_id = "default_user"`, the submitted text, and
`session_id = some "abc123"`. -/
theorem created_session_id_carried_by_queries (st : ClientState)
    (o : FetchOutcome CreateSessionResponse)
    (ho : callCreateSession ["search"] o = some { session_id := "abc123" })
    (ops : List ClientOp)
    (hops : ∀ op ∈ ops, isSuccessfulCreate op = false)
    (q : String) (hq : q ≠ "") (oq : FetchOutcome QueryResponse) :
    (createSession st ["search"] o).state.currentSessinId = some "abc123" ∧
    (sendQuery (runOps (createSession st ["search"] o).state ops) q oq).requests =
      [Request.query { user_id := "default_user", query := q,
                       session_id := some "abc123" }] := by
  have hsel : getSelectedTools ["search"] = ["search"] := getSelectedTools_eq _
  have h1 : (createSession st ["search"] o).state.currentSessinId = some "abc123" := by
    simp [createSession, hsel, ho]
  refine ⟨h1, ?_⟩
  have h2 : (runOps (createSession st ["search"] o).state ops).currentSessinId
      = some "abc123" := by
    rw [runOps_session_of_not_success _ ops hops, h1]
  cases hc : callQuery (some "abc123") q oq with
  | none => simp [sendQuery, h2, hq, hc, queryBody, userId]
  | some r => simp [sendQuery, h2, hq, hc, queryBody, userId]

/-- Witness for C1: create with tool `search`, survive an unrelated query,
an empty-selection creation and a failed creation, then query. -/
theorem created_session_id_carried_by_queries_witness :
    callCreateSession ["search"]
        (FetchOutcome.response 200 (some { session_id := "abc123" }))
      = some { session_id := "abc123" } ∧
    (∀ op ∈ [ClientOp.send "x" FetchOutcome.networkError,
             ClientOp.create [] (FetchOutcome.response 200 (some { session_id := "zzz" })),
             ClientOp.create ["a"] (FetchOutcome.response 500 none)],
        isSuccessfulCreate op = false) ∧
    ("hello" : String) ≠ "" ∧
    (createSession initialState ["search"]
        (FetchOutcome.response 200 (some { session_id := "abc123" }))).state.currentSessinId
      = some "abc123" ∧
    (sendQuery (runOps (createSession initialState ["search"]
          (FetchOutcome.response 200 (some { session_id := "abc123" }))).state
        [ClientOp.send "x" FetchOutcome.networkError,
         ClientOp.create [] (FetchOutcome.response 200 (some { session_id := "zzz" })),
         ClientOp.create ["a"] (FetchOutcome.response 500 none)])
        "hello" FetchOutcome.networkError).requests =
      [Request.query { user_id := "default_user", query := "hello",
                       session_id := some "abc123" }] := by
  refine ⟨rfl, by decide, by decide, ?_⟩
  exact created_session_id_carried_by_queries initialState
    (FetchOutcome.response 200 (some { session_id := "abc123" })) rfl
    [ClientOp.send "x" FetchOutcome.networkError,
     ClientOp.create [] (FetchOutcome.response 200 (some { session_id := "zzz" })),
     ClientOp.create ["a"] (FetchOutcome.response 500 none)]
    (by decide) "hello" (by decide) FetchOutcome.networkError

/-- C4: a non-2xx response to the catalog fetch, the session creation, or
the query leaves the page state unchanged at every page state — the stored
session id keeps its prior value, whether null or a previous id, and the
chat display text is untouched — and the error is logged whenever the
failing request was actually issued: always for the catalog fetch, for the
creation when some tool was checked, and for the query when a session was
held and the query text was non-empty. -/
theorem non2xx_logged_and_state_unchanged (st : ClientState) (status : Nat)
    (hstatus : responseOk status = false)
    (checkedValues : List String) (q : String)
    (b1 : Option ToolListResponse) (b2 : Option CreateSessionResponse)
    (b3 : Option QueryResponse) :
    ((initCheckbox st (FetchOutcome.response status b1)).state = st ∧
     (initCheckbox st (FetchOutcome.response status b1)).loggedError = true) ∧
    ((createSession st checkedValues (FetchOutcome.response status b2)).state = st ∧
     (checkedValues ≠ [] →
       (createSession st checkedValues
         (FetchOutcome.response status b2)).loggedError = true)) ∧
    ((sendQuery st q (FetchOutcome.response status b3)).state = st ∧
     (st.currentSessinId ≠ none → q ≠ "" →
       (sendQuery st q (FetchOutcome.response status b3)).loggedError = true)) := by
  refine ⟨⟨?_, ?_⟩, ⟨?_, ?_⟩, ⟨?_, ?_⟩⟩
  · simp [initCheckbox, callGetToolList, hstatus]
  · simp [initCheckbox, callGetToolList, fetchErrorLogged, hstatus]
  · by_cases hlen : (getSelectedTools checkedValues).length = 0
    · simp [createSession, hlen]
    · simp [createSession, hlen, callCreateSession, hstatus]
  · intro hc
    have hlen : ¬ (getSelectedTools checkedValues).length = 0 := by
      simp [getSelectedTools_eq, List.length_eq_zero, hc]
    simp [createSession, hlen, callCreateSession, fetchErrorLogged, hstatus]
  · cases hsid : st.currentSessinId with
    | none => simp [sendQuery, hsid]
    | some sid =>
        by_cases hq : q = ""
        · simp [sendQuery, hsid, hq]
        · simp [sendQuery, hsid, hq, callQuery, hstatus]
  · intro hsid hq
    cases hs : st.currentSessinId with
    | none => exact absurd hs hsid
    | some sid => simp [sendQuery, hs, hq, callQuery, fetchErrorLogged, hstatus]

/-- Witness for C4 at status 500: the page state is unchanged both at the
freshly loaded null-session page (catalog fetch, first creation) and at a
held-session page, and the issued query's failure is logged. -/
theorem non2xx_logged_and_state_unchanged_witness :
    responseOk 500 = false ∧
    (initCheckbox initialState (FetchOutcome.response 500 none)).state
      = initialState ∧
    (createSession initialState ["a"] (FetchOutcome.response 500 none)).state
      = initialState ∧
    (sendQuery { currentSessinId := some "s1", chatContent := "shown",
                 toolContainer := [] } "hi"
       (FetchOutcome.response 500 none)).state
      = { currentSessinId := some "s1", chatContent := "shown",
          toolContainer := [] } ∧
    (sendQuery { currentSessinId := some "s1", chatContent := "shown",
                 toolContainer := [] } "hi"
       (FetchOutcome.response 500 none)).loggedError = true := by
  refine ⟨rfl, ?_, ?_, ?_, ?_⟩
  · exact (non2xx_logged_and_state_unchanged initialState 500 rfl ["a"] "hi"
      none none none).1.1
  · exact (non2xx_logged_and_state_unchanged initialState 500 rfl ["a"] "hi"
      none none none).2.1.1
  · exact (non2xx_logged_and_state_unchanged
      { currentSessinId := some "s1", chatContent := "shown", toolContainer := [] }
      500 rfl ["a"] "hi" none none none).2.2.1
  · exact (non2xx_logged_and_state_unchanged
      { currentSessinId := some "s1", chatContent := "shown", toolContainer := [] }
      500 rfl ["a"] "hi" none none none).2.2.2 (by decide) (by decide)

/-- C5, counterexample: with `["search"]` checked and a 500 response to the
create call, the failure is caught and logged inside `callCreateSession`,
but `createSession` then dereferences the `undefined` result
(`newSessinId.session_id`) and the resulting `TypeError` escapes the
handler — refuting the claim that every failure is absorbed within its
action handler. -/
theorem failure_escapes_handler_cex :
    (createSession initialState ["search"]
        (FetchOutcome.response 500 none)).threw = true := by
  rfl

/-- C5 (amended): client-side validation failures (empty selection, null
session, empty query) are absorbed with an alert and no exception, and the
call functions catch and log every network, HTTP-status and parse failure;
but each handler then dereferences the `undefined` call result, and the
resulting `TypeError` escapes the handler — from `initCheckbox` always,
from `createSession` when some tool is checked, and from `sendQuery` when a
session is held and the query is non-empty. -/
theorem call_failures_resurface_as_handler_exceptions (st : ClientState)
    (checkedValues : List String) (hc : checkedValues ≠ [])
    (sid q : String) (hs : st.currentSessinId = some sid) (hq : q ≠ "")
    (o1 : FetchOutcome ToolListResponse) (h1 : callGetToolList o1 = none)
    (o2 : FetchOutcome CreateSessionResponse)
    (h2 : callCreateSession (getSelectedTools checkedValues) o2 = none)
    (o3 : FetchOutcome QueryResponse)
    (h3 : callQuery st.currentSessinId q o3 = none) :
    (initCheckbox st o1).threw = true ∧
    (createSession st checkedValues o2).threw = true ∧
    (sendQuery st q o3).threw = true ∧
    (createSession st [] o2).threw = false ∧
    (sendQuery st "" o3).threw = false ∧
    (sendQuery initialState q o3).threw = false := by
  have hlen : ¬ (getSelectedTools checkedValues).length = 0 := by
    simp [getSelectedTools_eq, List.length_eq_zero, hc]
  rw [hs] at h3
  refine ⟨?_, ?_, ?_, ?_, ?_, ?_⟩
  · simp [initCheckbox, h1]
  · simp [createSession, hlen, h2]
  · simp [sendQuery, hs, hq, h3]
  · simp [createSession, getSelectedTools]
  · simp [sendQuery, hs]
  · simp [sendQuery, initialState]

/-- Witness for the amended C5 with a transport error, a 500 status and a
transport error respectively. -/
theorem call_failures_resurface_as_handler_exceptions_witness :
    (["a"] : List String) ≠ [] ∧
    ({ currentSessinId := some "s1", chatContent := "",
       toolContainer := [] } : ClientState).currentSessinId = some "s1" ∧
    ("hi" : String) ≠ "" ∧
    callGetToolList FetchOutcome.networkError = none ∧
    callCreateSession (getSelectedTools ["a"]) (FetchOutcome.response 500 none) = none ∧
    callQuery (some "s1") "hi" FetchOutcome.networkError = none ∧
    ((initCheckbox { currentSessinId := some "s1", chatContent := "",
                     toolContainer := [] } FetchOutcome.networkError).threw = true ∧
     (createSession { currentSessinId := some "s1", chatContent := "",
                      toolContainer := [] } ["a"]
        (FetchOutcome.response 500 none)).threw = true ∧
     (sendQuery { currentSessinId := some "s1", chatContent := "",
                  toolContainer := [] } "hi" FetchOutcome.networkError).threw = true) := by
  refine ⟨by decide, rfl, by decide, rfl, rfl, rfl, ?_⟩
  have h := call_failures_resurface_as_handler_exceptions
    { currentSessinId := some "s1", chatContent := "", toolContainer := [] }
    ["a"] (by decide) "s1" "hi" rfl (by decide)
    FetchOutcome.networkError rfl
    (FetchOutcome.response 500 none) rfl
    FetchOutcome.networkError rfl
  exact ⟨h.1, h.2.1, h.2.2.1⟩

/-- C9: once the stored session id is non-null it stays non-null across any
further run, and any single operation that is not a successful session
creation leaves the stored id exactly as it was — so the only client-side
transition is no-session to has-session on a successful creation, and no
operation returns the client to the no-session state. -/
theorem session_never_reverts_to_null (st : ClientState) (ops : List ClientOp)
    (op : ClientOp) (h : st.currentSessinId.isSome = true)
    (hop : isSuccessfulCreate op = false) :
    (runOps st ops).currentSessinId.isSome = true ∧
    (stepState st op).currentSessinId = st.currentSessinId :=
  ⟨runOps_session_isSome st ops h, stepState_session_of_not_success st op hop⟩

/-- Witness for C9 with a held session, a query-and-failed-creation run,
and an empty-selection creation step. -/
theorem session_never_reverts_to_null_witness :
    ({ currentSessinId := some "s1", chatContent := "",
       toolContainer := [] } : ClientState).currentSessinId.isSome = true ∧
    isSuccessfulCreate
      (ClientOp.create [] (FetchOutcome.response 200 (some { session_id := "z" })))
      = false ∧
    ((runOps { currentSessinId := some "s1", chatContent := "", toolContainer := [] }
        [ClientOp.send "x" FetchOutcome.networkError,
         ClientOp.create ["a"] (FetchOutcome.response 500 none)]).currentSessinId.isSome
      = true ∧
     (stepState { currentSessinId := some "s1", chatContent := "", toolContainer := [] }
        (ClientOp.create [] (FetchOutcome.response 200
          (some { session_id := "z" })))).currentSessinId
      = ({ currentSessinId := some "s1", chatContent := "",
           toolContainer := [] } : ClientState).currentSessinId) :=
  ⟨rfl, by decide,
   session_never_reverts_to_null
     { currentSessinId := some "s1", chatContent := "", toolContainer := [] }
     [ClientOp.send "x" FetchOutcome.networkError,
      ClientOp.create ["a"] (FetchOutcome.response 500 none)]
     (ClientOp.create [] (FetchOutcome.response 200 (some { session_id := "z" })))
     rfl (by decide)⟩

/-- C10: each API call function absorbs its own failures: on a non-2xx
status the thrown error is caught and logged and the function returns
`undefined` (`none`); likewise on a transport error, and on a body parse
error at any status — callers receive `undefined` from the call, never an
exception. -/
theorem api_calls_catch_log_and_return_undefined (status : Nat)
    (hstatus : responseOk status = false)
    (selectedTools : List String) (sid : Option String) (q : String)
    (b1 : Option ToolListResponse) (b2 : Option CreateSessionResponse)
    (b3 : Option QueryResponse) (s2 : Nat) :
    (callGetToolList (FetchOutcome.response status b1) = none ∧
     fetchErrorLogged (FetchOutcome.response status b1) = true) ∧
    (callCreateSession selectedTools (FetchOutcome.response status b2) = none ∧
     fetchErrorLogged (FetchOutcome.response status b2) = true) ∧
    (callQuery sid q (FetchOutcome.response status b3) = none ∧
     fetchErrorLogged (FetchOutcome.response status b3) = true) ∧
    (callGetToolList FetchOutcome.networkError = none ∧
     callCreateSession selectedTools FetchOutcome.networkError = none ∧
     callQuery sid q FetchOutcome.networkError = none ∧
     fetchErrorLogged (FetchOutcome.networkError : FetchOutcome QueryResponse) = true) ∧
    (callGetToolList (FetchOutcome.response s2 none) = none ∧
     callCreateSession selectedTools (FetchOutcome.response s2 none) = none ∧
     callQuery sid q (FetchOutcome.response s2 none) = none) := by
  refine ⟨⟨?_, ?_⟩, ⟨?_, ?_⟩, ⟨?_, ?_⟩, ⟨rfl, rfl, rfl, rfl⟩, ⟨?_, ?_, ?_⟩⟩
  · simp [callGetToolList, hstatus]
  · simp [fetchErrorLogged, hstatus]
  · simp [callCreateSession, hstatus]
  · simp [fetchErrorLogged, hstatus]
  · simp [callQuery, hstatus]
  · simp [fetchErrorLogged, hstatus]
  · simp [callGetToolList]
  · simp [callCreateSession]
  · simp [callQuery]

/-- Witness for C10 at status 404. -/
theorem api_calls_catch_log_and_return_undefined_witness :
    responseOk 404 = false ∧
    callGetToolList (FetchOutcome.response 404
        (some { tools := [] } : Option ToolListResponse)) = none ∧
    callCreateSession ["a"] (FetchOutcome.response 404
        (some { session_id := "s" })) = none ∧
    callQuery (some "s1") "hi" (FetchOutcome.response 404
        (some { response := "r" })) = none := by
  refine ⟨rfl, ?_, ?_, ?_⟩
  · exact (api_calls_catch_log_and_return_undefined 404 rfl ["a"] (some "s1") "hi"
      (some { tools := [] }) (some { session_id := "s" }) (some { response := "r" })
      0).1.1
  · exact (api_calls_catch_log_and_return_undefined 404 rfl ["a"] (some "s1") "hi"
      (some { tools := [] }) (some { session_id := "s" }) (some { response := "r" })
      0).2.1.1
  · exact (api_calls_catch_log_and_return_undefined 404 rfl ["a"] (some "s1") "hi"
      (some { tools := [] }) (some { session_id := "s" }) (some { response := "r" })
      0).2.2.1.1

end DevAgent
